import Mathlib

/-!
Shallow embedding of the cortexm-threads scheduler core (src/src/lib.rs).

The Rust module keeps one global `ThreadsState` plus a few memory-mapped /
CPU resources (the ICSR register at 0xE000ED04 and the PRIMASK interrupt
mask driven by the `cpsid` / `cpsie` primitives).  Here the global state is
passed explicitly: every Rust function that mutates the global becomes a
Lean function from state to state (returning its Rust result alongside).
Machine words (`u32` / `usize`) are modelled as `Nat`: no arithmetic in the
embedded code can overflow 32 bits (the only arithmetic is `sleep_ticks - 1`
guarded by `sleep_ticks > 0`, and `add_idx + 1` bounded by 32).

Addresses are modelled abstractly: `tcbAddr i` stands for `&threads[i]`
(an injective affine map, base + stride * i), and a stack buffer passed to
`create_tcb` carries its base address `base`, so that `&stack[j]` is
`base + 4 * j`.
-/

namespace CortexmThreads

/-- Error code `ERR_TOO_MANY_THREADS = 0x01` (src/src/lib.rs line 62). -/
def ERR_TOO_MANY_THREADS : Nat := 0x01

/-- Error code `ERR_STACK_TOO_SMALL = 0x02` (src/src/lib.rs line 65). -/
def ERR_STACK_TOO_SMALL : Nat := 0x02

/-- Error code `ERR_NO_CREATE_PRIV = 0x03` (src/src/lib.rs line 68). -/
def ERR_NO_CREATE_PRIV : Nat := 0x03

/-- Thread status (enum `ThreadStatus` in the source): `Idle` means
runnable or running, `Sleeping` means excluded from scheduling. -/
inductive ThreadStatus where
  | Idle : ThreadStatus
  | Sleeping : ThreadStatus
deriving DecidableEq

/-- `struct ThreadControlBlock` from the source.  `sp` and `privileged`
are machine words, `priority` is a `u8`, `sleep_ticks` a `u32`. -/
structure ThreadControlBlock where
  sp : Nat
  privileged : Nat
  priority : Nat
  status : ThreadStatus
  sleep_ticks : Nat
deriving DecidableEq

instance : Inhabited ThreadControlBlock :=
  ⟨{ sp := 0, privileged := 0, priority := 0,
     status := ThreadStatus.Idle, sleep_ticks := 0 }⟩

/-- `struct ThreadsState` from the source.  The `threads` array
`[ThreadControlBlock; 32]` is a list (length 32 in every reachable state;
theorems that need the capacity take it as a hypothesis). -/
structure ThreadsState where
  curr : Nat
  next : Nat
  inited : Bool
  idx : Nat
  add_idx : Nat
  threads : List ThreadControlBlock
deriving DecidableEq

/-- The machine context around the scheduler state: the interrupt-enable
flag (the `cpsid` primitive clears it, `cpsie` sets it), the current value
of the ICSR register at 0xE000ED04, and the log of values written to ICSR
(volatile MMIO writes are observable events, so a write of an unchanged
value is still recorded). -/
structure Machine where
  ts : ThreadsState
  intsEnabled : Bool
  icsr : Nat
  icsrWrites : List Nat
deriving DecidableEq

/-- Abstract address of `&threads[i]`: an injective affine map with a
nonzero base, standing for the static global's layout. -/
def tcbAddr (i : Nat) : Nat := 0x20000000 + 16 * i

/-- One slot's sleep update, the body of the `for i in 1..add_idx` loop of
`get_next_thread_idx`: a sleeping thread with a positive counter is
decremented, a sleeping thread whose counter reached 0 is woken. -/
def tickSleeper (t : ThreadControlBlock) : ThreadControlBlock :=
  if t.status = ThreadStatus.Sleeping then
    if t.sleep_ticks > 0 then { t with sleep_ticks := t.sleep_ticks - 1 }
    else { t with status := ThreadStatus.Idle }
  else t

/-- The `for i in 1..add_idx` loop of `get_next_thread_idx`: each
iteration touches only slot `i`, so the loop is the pointwise update of
the slots in `[1, add_idx)`. -/
def updateSleepers (add_idx : Nat) (threads : List ThreadControlBlock) :
    List ThreadControlBlock :=
  threads.mapIdx (fun i t => if 1 ≤ i ∧ i < add_idx then tickSleeper t else t)

/-- The table after the sleep update, as read by the selection step. -/
def updThreads (s : ThreadsState) : List ThreadControlBlock :=
  updateSleepers s.add_idx s.threads

/-- The `.filter(...)` predicate of `get_next_thread_idx`:
`idx > 0 && idx < add_idx && x.status != ThreadStatus::Sleeping`. -/
def runnableFilter (add_idx : Nat) (p : Nat × ThreadControlBlock) : Bool :=
  decide (0 < p.1) && decide (p.1 < add_idx) &&
    decide (p.2.status ≠ ThreadStatus.Sleeping)

/-- The candidate list built by `.enumerate().filter(...)` in
`get_next_thread_idx`, over the table after the sleep update. -/
def candidates (s : ThreadsState) : List (Nat × ThreadControlBlock) :=
  (updThreads s).enum.filter (runnableFilter s.add_idx)

/-- One step of Rust's `Iterator::max_by` with comparator
`a.priority.cmp(&b.priority)`: the accumulator is kept only when it is
strictly greater, so on ties the later element wins (Rust's `max_by`
returns the last maximal element). -/
def stepMax (acc : Option (Nat × ThreadControlBlock))
    (x : Nat × ThreadControlBlock) : Option (Nat × ThreadControlBlock) :=
  match acc with
  | none => some x
  | some a => if x.2.priority < a.2.priority then some a else some x

/-- Rust's `.max_by(|&(_, a), &(_, b)| a.priority.cmp(&b.priority))`:
a fold that keeps the later element on priority ties. -/
def maxByPriority (l : List (Nat × ThreadControlBlock)) :
    Option (Nat × ThreadControlBlock) :=
  l.foldl stepMax none

/-- `get_next_thread_idx` (src/src/lib.rs lines 300-327).  Returns the
selected slot index together with the updated state (the sleep-counter
update mutates the global table). -/
def get_next_thread_idx (s : ThreadsState) : Nat × ThreadsState :=
  if s.add_idx ≤ 1 then (0, s)
  else
    match maxByPriority (candidates s) with
    | some (i, _) => (i, { s with threads := updThreads s })
    | none => (0, { s with threads := updThreads s })

/-- The reselection step of `SysTick`: performed only when
`curr == next`; it stores the selected index into `idx` and the address
of the selected TCB into `next`. -/
def systickSelect (s : ThreadsState) : ThreadsState :=
  if s.curr = s.next then
    let r := get_next_thread_idx s
    { r.2 with idx := r.1, next := tcbAddr r.1 }
  else s

/-- The `SysTick` handler (src/src/lib.rs lines 243-266): `cpsid`, then,
when `inited`, the guarded reselection followed by the read-modify-write
of ICSR (OR-ing in bit 28) when `curr != next`, then `cpsie`. -/
def SysTick (m : Machine) : Machine :=
  let m1 : Machine := { m with intsEnabled := false }
  let m2 : Machine :=
    if m1.ts.inited then
      let ts1 := systickSelect m1.ts
      if ts1.curr ≠ ts1.next then
        { m1 with ts := ts1,
                  icsr := m1.icsr ||| 1 <<< 28,
                  icsrWrites := m1.icsrWrites ++ [m1.icsr ||| 1 <<< 28] }
      else { m1 with ts := ts1 }
    else m1
  { m2 with intsEnabled := true }

/-- `sleep` (src/src/lib.rs lines 290-298): when the current slot index is
positive, mark it sleeping with the given tick count and invoke the tick
handler; otherwise do nothing. -/
def sleep (ticks : Nat) (m : Machine) : Machine :=
  if m.ts.idx > 0 then
    let t := m.ts.threads.getD m.ts.idx default
    let t1 : ThreadControlBlock :=
      { t with status := ThreadStatus.Sleeping, sleep_ticks := ticks }
    let ts1 : ThreadsState := { m.ts with threads := m.ts.threads.set m.ts.idx t1 }
    SysTick { m with ts := ts1 }
  else m

/-- The sixteen stack writes of `create_tcb` (src/src/lib.rs lines
338-356), with `idx = stack.len() - 1`: the synthetic exception frame
(xPSR, PC, LR, R12, R3-R0) followed by the software-saved registers
(R7-R4, R11-R8). -/
def buildFrame (stack : List Nat) (pc : Nat) : List Nat :=
  (((((((((((((((stack.set (stack.length - 1) (1 <<< 24)
    ).set (stack.length - 1 - 1) pc
    ).set (stack.length - 1 - 2) 0xFFFFFFFD
    ).set (stack.length - 1 - 3) 0xCCCCCCCC
    ).set (stack.length - 1 - 4) 0x33333333
    ).set (stack.length - 1 - 5) 0x22222222
    ).set (stack.length - 1 - 6) 0x11111111
    ).set (stack.length - 1 - 7) 0x00000000
    ).set (stack.length - 1 - 8) 0x77777777
    ).set (stack.length - 1 - 9) 0x66666666
    ).set (stack.length - 1 - 10) 0x55555555
    ).set (stack.length - 1 - 11) 0x44444444
    ).set (stack.length - 1 - 12) 0xBBBBBBBB
    ).set (stack.length - 1 - 13) 0xAAAAAAAA
    ).set (stack.length - 1 - 14) 0x99999999
    ).set (stack.length - 1 - 15) 0x88888888

/-- `create_tcb` (src/src/lib.rs lines 329-368).  `base` is the address
of `stack[0]`, so the stored `sp = &stack[len - 16]` is
`base + 4 * (len - 16)`.  The entry-function address `handler` is stored
as the initial PC.  Fails with `ERR_STACK_TOO_SMALL` (before any write)
when the buffer holds fewer than 32 words. -/
def create_tcb (base : Nat) (stack : List Nat) (handler priority : Nat)
    (priviliged : Bool) :
    Except Nat (List Nat × ThreadControlBlock) :=
  if stack.length < 32 then Except.error ERR_STACK_TOO_SMALL
  else
    let stack1 := buildFrame stack handler
    Except.ok (stack1,
      { sp := base + 4 * (stack.length - 16),
        priority := priority,
        privileged := if priviliged then 0x1 else 0x0,
        status := ThreadStatus.Idle,
        sleep_ticks := 0 })

/-- `insert_tcb` (src/src/lib.rs lines 370-375). -/
def insert_tcb (ts : ThreadsState) (idx : Nat) (tcb : ThreadControlBlock) :
    ThreadsState :=
  { ts with threads := ts.threads.set idx tcb }

/-- `create_thread_with_config` (src/src/lib.rs lines 205-233).  Returns
the Rust result, the machine after the call (note: the two early error
returns leave `intsEnabled = false`, exactly as the source returns without
executing `cpsie`), and the stack buffer after the call. -/
def create_thread_with_config (m : Machine) (base : Nat) (stack : List Nat)
    (handler_fn priority : Nat) (priviliged : Bool) :
    Except Nat Unit × Machine × List Nat :=
  let m1 : Machine := { m with intsEnabled := false }
  if m1.ts.threads.length ≤ m1.ts.add_idx then
    (Except.error ERR_TOO_MANY_THREADS, m1, stack)
  else if m1.ts.inited && (m1.ts.threads.getD m1.ts.idx default).privileged == 0 then
    (Except.error ERR_NO_CREATE_PRIV, m1, stack)
  else
    match create_tcb base stack handler_fn priority priviliged with
    | Except.ok (stack1, tcb) =>
        let ts1 := insert_tcb m1.ts m1.ts.add_idx tcb
        let ts2 : ThreadsState := { ts1 with add_idx := ts1.add_idx + 1 }
        (Except.ok (), { m1 with ts := ts2, intsEnabled := true }, stack1)
    | Except.error e =>
        (Except.error e, { m1 with intsEnabled := true }, stack)

/-- `create_thread` (src/src/lib.rs lines 178-180): default configuration,
lowest priority, unprivileged. -/
def create_thread (m : Machine) (base : Nat) (stack : List Nat)
    (handler_fn : Nat) : Except Nat Unit × Machine × List Nat :=
  create_thread_with_config m base stack handler_fn 0x00 false

/-- The slot `i` is eligible for selection in the invocation of
`get_next_thread_idx` on state `s`: a user slot in `[1, add_idx)` whose
record in the table after the sleep update is `t` and is not sleeping
(the membership condition of `candidates s`). -/
def runnableAfter (s : ThreadsState) (i : Nat) (t : ThreadControlBlock) : Prop :=
  0 < i ∧ i < s.add_idx ∧ (updThreads s)[i]? = some t ∧
    t.status ≠ ThreadStatus.Sleeping

instance (s : ThreadsState) (i : Nat) (t : ThreadControlBlock) :
    Decidable (runnableAfter s i t) := by
  unfold runnableAfter; infer_instance

/-- Executable bound check used to discharge, by evaluation, hypotheses of
the form "every eligible slot has priority at most `p`". -/
def maxPrioBound (s : ThreadsState) (p : Nat) : Bool :=
  (updThreads s).enum.all
    (fun q => !(runnableFilter s.add_idx q) || decide (q.2.priority ≤ p))

/-- The scheduler state iterated: `schedIter k s` is the state after `k`
invocations of `get_next_thread_idx` starting from `s` (discarding the
returned indices). -/
def schedIter : Nat → ThreadsState → ThreadsState
  | 0, s => s
  | k + 1, s => (get_next_thread_idx (schedIter k s)).2

/-- The privileged field of the TCB produced by a `create_tcb` call. -/
def privOf (r : Except Nat (List Nat × ThreadControlBlock)) : Option Nat :=
  match r with
  | Except.ok (_, tcb) => some tcb.privileged
  | Except.error _ => none

/-- A default (zero) TCB, the initializer of the global table. -/
def tcb0 : ThreadControlBlock :=
  { sp := 0, privileged := 0, priority := 0,
    status := ThreadStatus.Idle, sleep_ticks := 0 }

/-- An idle-like TCB with a given priority and status. -/
def mkTcb (pr : Nat) (st : ThreadStatus) (ticks : Nat) : ThreadControlBlock :=
  { sp := 0, privileged := 1, priority := pr, status := st, sleep_ticks := ticks }

/-- The zero-initialized global state of the source (`add_idx = 1`). -/
def initialState : ThreadsState :=
  { curr := 0, next := 0, inited := false, idx := 0, add_idx := 1,
    threads := List.replicate 32 tcb0 }

/-- A machine wrapping the zero-initialized state, interrupts enabled. -/
def m0 : Machine :=
  { ts := initialState, intsEnabled := true, icsr := 0, icsrWrites := [] }

/-- A 32-word stack buffer filled with the 0xDEADBEEF pattern. -/
def stack32 : List Nat := List.replicate 32 0xDEADBEEF

/-- A state whose user slots 1 and 2 are both non-sleeping at the shared
maximal priority 5 (`add_idx = 3`). -/
def exC1 : ThreadsState :=
  { curr := 0, next := 0, inited := true, idx := 1, add_idx := 3,
    threads := ((List.replicate 32 tcb0).set 1 (mkTcb 5 ThreadStatus.Idle 0)).set 2
      (mkTcb 5 ThreadStatus.Idle 0) }

/-- A machine whose thread table is full (`add_idx = 32`). -/
def mFull : Machine :=
  { ts := { initialState with add_idx := 32 },
    intsEnabled := true, icsr := 0, icsrWrites := [] }

/-- A machine running an unprivileged thread after `init`: slot 1 is
current and its `privileged` field is 0. -/
def mUnpriv : Machine :=
  { ts := { curr := tcbAddr 1, next := tcbAddr 1, inited := true, idx := 1,
            add_idx := 2,
            threads := (List.replicate 32 tcb0).set 1
              { sp := 0, privileged := 0, priority := 0,
                status := ThreadStatus.Idle, sleep_ticks := 0 } },
    intsEnabled := true, icsr := 0, icsrWrites := [] }

/-- A state with a single user thread sleeping for 3 ticks. -/
def exC6 : ThreadsState :=
  { curr := 0, next := 0, inited := true, idx := 0, add_idx := 2,
    threads := (List.replicate 32 tcb0).set 1 (mkTcb 1 ThreadStatus.Sleeping 3) }

/-- A state with one runnable user thread in slot 1. -/
def exC8 : ThreadsState :=
  { curr := 0, next := 0, inited := true, idx := 0, add_idx := 2,
    threads := (List.replicate 32 tcb0).set 1 (mkTcb 5 ThreadStatus.Idle 0) }

/-- A machine ready to tick: initialized, `curr = next = 0`, so the
reselection step runs and moves `next` to `tcbAddr 0`. -/
def mW : Machine :=
  { ts := { initialState with inited := true },
    intsEnabled := true, icsr := 5, icsrWrites := [] }

/-!  Branch lemmas for `create_thread_with_config`.  -/

theorem create_err_toomany (m : Machine) (base : Nat) (stack : List Nat)
    (f pr : Nat) (pv : Bool) (h : m.ts.threads.length ≤ m.ts.add_idx) :
    create_thread_with_config m base stack f pr pv =
      (Except.error ERR_TOO_MANY_THREADS, { m with intsEnabled := false }, stack) := by
  simp [create_thread_with_config, if_pos h]

theorem create_err_nopriv (m : Machine) (base : Nat) (stack : List Nat)
    (f pr : Nat) (pv : Bool) (h1 : m.ts.add_idx < m.ts.threads.length)
    (h2 : m.ts.inited = true)
    (h3 : (m.ts.threads.getD m.ts.idx default).privileged = 0) :
    create_thread_with_config m base stack f pr pv =
      (Except.error ERR_NO_CREATE_PRIV, { m with intsEnabled := false }, stack) := by
  have h1' : ¬ (m.ts.threads.length ≤ m.ts.add_idx) := by omega
  simp only [List.getD_eq_getElem?_getD] at h3
  simp [create_thread_with_config, if_neg h1', h2, h3]

theorem create_err_stack (m : Machine) (base : Nat) (stack : List Nat)
    (f pr : Nat) (pv : Bool) (h1 : m.ts.add_idx < m.ts.threads.length)
    (h2 : ¬ (m.ts.inited = true ∧
      (m.ts.threads.getD m.ts.idx default).privileged = 0))
    (h3 : stack.length < 32) :
    create_thread_with_config m base stack f pr pv =
      (Except.error ERR_STACK_TOO_SMALL, { m with intsEnabled := true }, stack) := by
  have h1' : ¬ (m.ts.threads.length ≤ m.ts.add_idx) := by omega
  simp only [List.getD_eq_getElem?_getD] at h2
  simp [create_thread_with_config, if_neg h1', create_tcb, if_pos h3]
  exact fun hI hP => h2 ⟨hI, hP⟩

theorem create_ok_result (m : Machine) (base : Nat) (stack : List Nat)
    (f pr : Nat) (pv : Bool) (h1 : m.ts.add_idx < m.ts.threads.length)
    (h2 : ¬ (m.ts.inited = true ∧
      (m.ts.threads.getD m.ts.idx default).privileged = 0))
    (h3 : 32 ≤ stack.length) :
    create_thread_with_config m base stack f pr pv =
      (Except.ok (),
       { ts := { m.ts with
                  threads := m.ts.threads.set m.ts.add_idx
                    { sp := base + 4 * (stack.length - 16), priority := pr,
                      privileged := if pv then 1 else 0,
                      status := ThreadStatus.Idle, sleep_ticks := 0 },
                  add_idx := m.ts.add_idx + 1 },
         intsEnabled := true, icsr := m.icsr, icsrWrites := m.icsrWrites },
       buildFrame stack f) := by
  have h1' : ¬ (m.ts.threads.length ≤ m.ts.add_idx) := by omega
  have h3' : ¬ (stack.length < 32) := by omega
  simp only [List.getD_eq_getElem?_getD] at h2
  have hc : create_tcb base stack f pr pv =
      Except.ok (buildFrame stack f,
        { sp := base + 4 * (stack.length - 16), priority := pr,
          privileged := if pv then 1 else 0,
          status := ThreadStatus.Idle, sleep_ticks := 0 }) := by
    simp [create_tcb, if_neg h3']
  simp [create_thread_with_config, if_neg h1', hc, insert_tcb]
  exact fun hI hP => h2 ⟨hI, hP⟩

/-- C9: `sleep` invoked while the current slot index is 0 is a no-op: the
whole machine (scheduler state, every TCB field, the interrupt flag, ICSR
and its write log) is unchanged, so slot 0 keeps its status and sleep
counter and the tick handler is not invoked. -/
theorem c9_sleep_idle_noop (ticks : Nat) (m : Machine) (h : m.ts.idx = 0) :
    sleep ticks m = m := by
  unfold sleep
  rw [h]
  simp

/-- Witness for C9 at the zero-initialized machine. -/
theorem c9_witness : sleep 100 m0 = m0 :=
  c9_sleep_idle_noop 100 m0 rfl

/-- C2 (evaluating the code at failing inputs): on the `TooManyThreads`
path (full table, `mFull`) and on the `NoCreatePrivilege` path
(unprivileged current thread, `mUnpriv`), `create_thread_with_config`
returns with interrupts still disabled: the early `return` skips the
`cpsie` that the claim requires.  Only the `StackTooSmall` path (last
conjuncts) re-enables interrupts before returning. -/
theorem c2_interrupts_left_disabled :
    (create_thread_with_config mFull 0 stack32 0 0 false).1 =
        Except.error ERR_TOO_MANY_THREADS ∧
    ((create_thread_with_config mFull 0 stack32 0 0 false).2.1).intsEnabled = false ∧
    (create_thread_with_config mUnpriv 0 stack32 0 0 false).1 =
        Except.error ERR_NO_CREATE_PRIV ∧
    ((create_thread_with_config mUnpriv 0 stack32 0 0 false).2.1).intsEnabled = false ∧
    (create_thread_with_config m0 0 (List.replicate 8 0) 0 0 false).1 =
        Except.error ERR_STACK_TOO_SMALL ∧
    ((create_thread_with_config m0 0 (List.replicate 8 0) 0 0 false).2.1).intsEnabled
        = true :=
  ⟨rfl, rfl, rfl, rfl, rfl, rfl⟩

/-- Counterexample to C3 as stated: `create_tcb` called with
`privileged = true` stores 1 in the `privileged` field, not 0. -/
theorem c3_counterexample :
    privOf (create_tcb 0 stack32 0 0 true) = some 1 ∧ (1 : Nat) ≠ 0 :=
  ⟨rfl, by decide⟩

/-- C3 amended: the stored `privileged` field is the plain boolean,
1 = privileged and 0 = unprivileged (the encoding the source's own
`NoCreatePrivilege` check `privileged == 0` relies on): a successful
`create_thread_with_config` with `privileged = true` stores 1 at slot
`add_idx`, and with `privileged = false` stores 0. -/
theorem c3_amended_privileged_encoding (m : Machine) (base : Nat)
    (stack : List Nat) (f pr : Nat) (pv : Bool)
    (h1 : m.ts.add_idx < m.ts.threads.length)
    (h2 : ¬ (m.ts.inited = true ∧
      (m.ts.threads.getD m.ts.idx default).privileged = 0))
    (h3 : 32 ≤ stack.length) :
    (create_thread_with_config m base stack f pr pv).1 = Except.ok () ∧
    ((create_thread_with_config m base stack f pr pv).2.1.ts.threads.getD
        m.ts.add_idx default).privileged = if pv then 1 else 0 := by
  rw [create_ok_result m base stack f pr pv h1 h2 h3]
  refine ⟨rfl, ?_⟩
  simp only [List.getD_eq_getElem?_getD, List.getElem?_set_self h1,
    Option.getD_some]

/-- Witness for C3 amended: creating a privileged thread from the
zero-initialized machine stores `privileged = 1` at slot 1. -/
theorem c3_witness :
    (create_thread_with_config m0 0 stack32 7 3 true).1 = Except.ok () ∧
    ((create_thread_with_config m0 0 stack32 7 3 true).2.1.ts.threads.getD
        m0.ts.add_idx default).privileged = if true then 1 else 0 :=
  c3_amended_privileged_encoding m0 0 stack32 7 3 true (by decide) (by decide)
    (by decide)

/-- C7: the `SysTick` handler leaves ICSR untouched when not `inited`;
when `inited`, after the guarded reselection step (`systickSelect`,
performed only when `curr == next`), if `curr` differs from `next` it
performs exactly one read-modify-write of ICSR, OR-ing bit 28 into the
previously read value (so bit 28 is set and all other bits are
preserved), and otherwise performs no ICSR write at all. -/
theorem c7_systick_icsr (m : Machine) :
    (m.ts.inited = false →
        (SysTick m).icsr = m.icsr ∧ (SysTick m).icsrWrites = m.icsrWrites) ∧
    (m.ts.inited = true →
      ((systickSelect m.ts).curr ≠ (systickSelect m.ts).next →
          (SysTick m).icsr = m.icsr ||| 1 <<< 28 ∧
          Nat.testBit (SysTick m).icsr 28 = true ∧
          (∀ b, b ≠ 28 → Nat.testBit (SysTick m).icsr b = Nat.testBit m.icsr b) ∧
          (SysTick m).icsrWrites = m.icsrWrites ++ [m.icsr ||| 1 <<< 28]) ∧
      ((systickSelect m.ts).curr = (systickSelect m.ts).next →
          (SysTick m).icsr = m.icsr ∧ (SysTick m).icsrWrites = m.icsrWrites)) := by
  constructor
  · intro h
    simp [SysTick, h]
  · intro h
    constructor
    · intro hne
      have hS : SysTick m =
          { m with ts := systickSelect m.ts,
                   icsr := m.icsr ||| 1 <<< 28,
                   icsrWrites := m.icsrWrites ++ [m.icsr ||| 1 <<< 28],
                   intsEnabled := true } := by
        simp [SysTick, h, if_pos hne]
      rw [hS]
      refine ⟨rfl, ?_, ?_, rfl⟩
      · have hbit : Nat.testBit 268435456 28 = true := by decide
        simp [Nat.testBit_or, hbit]
      · intro b hb
        have h1b : Nat.testBit 1 (b - 28) = decide (0 = b - 28) := by
          have h20 : (1 : Nat) = 2 ^ 0 := rfl
          rw [h20, Nat.testBit_two_pow]
        have hzero : Nat.testBit (1 <<< 28) b = false := by
          rw [Nat.testBit_shiftLeft, h1b]
          rcases Nat.lt_or_ge b 28 with hlt | hge
          · have hx : ¬ (b ≥ 28) := by omega
            simp [hx]
          · have hx : ¬ (0 = b - 28) := by omega
            simp [hx]
        have hzero28 : Nat.testBit 268435456 b = false := hzero
        simp [Nat.testBit_or, hzero28]
    · intro heq
      have hS : SysTick m = { m with ts := systickSelect m.ts, intsEnabled := true } := by
        simp [SysTick, h, heq]
      rw [hS]
      exact ⟨rfl, rfl⟩

/-- Witness for C7 at `mW`: the reselection moves `next` to `tcbAddr 0`
while `curr` is still 0, so the tick pends PendSV by OR-ing bit 28. -/
theorem c7_witness :
    (SysTick mW).icsr = mW.icsr ||| 1 <<< 28 ∧
    (SysTick mW).icsrWrites = mW.icsrWrites ++ [mW.icsr ||| 1 <<< 28] :=
  ⟨(((c7_systick_icsr mW).2 rfl).1 (by decide)).1,
   (((c7_systick_icsr mW).2 rfl).1 (by decide)).2.2.2⟩

/-- C5: the error cascade of `create_thread_with_config` in source order:
`TooManyThreads` when the 32-entry table is full, else `NoCreatePrivilege`
when `inited` and the current thread's TCB is unprivileged (its
`privileged` field is 0), else `StackTooSmall` when the stack has fewer
than 32 words, else success with the new TCB stored at slot `add_idx`
and `add_idx` incremented by exactly one; every error leaves `add_idx`
and the TCB table unchanged. -/
theorem c5_create_thread_with_config_spec (m : Machine) (base : Nat)
    (stack : List Nat) (f pr : Nat) (pv : Bool)
    (hlen : m.ts.threads.length = 32) :
    (32 ≤ m.ts.add_idx →
        (create_thread_with_config m base stack f pr pv).1 =
            Except.error ERR_TOO_MANY_THREADS ∧
        (create_thread_with_config m base stack f pr pv).2.1.ts.add_idx =
            m.ts.add_idx ∧
        (create_thread_with_config m base stack f pr pv).2.1.ts.threads =
            m.ts.threads) ∧
    (m.ts.add_idx < 32 →
      ((m.ts.inited = true ∧
          (m.ts.threads.getD m.ts.idx default).privileged = 0) →
        (create_thread_with_config m base stack f pr pv).1 =
            Except.error ERR_NO_CREATE_PRIV ∧
        (create_thread_with_config m base stack f pr pv).2.1.ts.add_idx =
            m.ts.add_idx ∧
        (create_thread_with_config m base stack f pr pv).2.1.ts.threads =
            m.ts.threads) ∧
      (¬ (m.ts.inited = true ∧
          (m.ts.threads.getD m.ts.idx default).privileged = 0) →
        (stack.length < 32 →
          (create_thread_with_config m base stack f pr pv).1 =
              Except.error ERR_STACK_TOO_SMALL ∧
          (create_thread_with_config m base stack f pr pv).2.1.ts.add_idx =
              m.ts.add_idx ∧
          (create_thread_with_config m base stack f pr pv).2.1.ts.threads =
              m.ts.threads) ∧
        (32 ≤ stack.length →
          (create_thread_with_config m base stack f pr pv).1 = Except.ok () ∧
          (create_thread_with_config m base stack f pr pv).2.1.ts.add_idx =
              m.ts.add_idx + 1 ∧
          (create_thread_with_config m base stack f pr pv).2.1.ts.threads =
              m.ts.threads.set m.ts.add_idx
                { sp := base + 4 * (stack.length - 16), priority := pr,
                  privileged := if pv then 1 else 0,
                  status := ThreadStatus.Idle, sleep_ticks := 0 }))) := by
  constructor
  · intro h
    rw [create_err_toomany m base stack f pr pv (by omega)]
    exact ⟨rfl, rfl, rfl⟩
  · intro h
    constructor
    · intro hp
      rw [create_err_nopriv m base stack f pr pv (by omega) hp.1 hp.2]
      exact ⟨rfl, rfl, rfl⟩
    · intro hp
      constructor
      · intro hs
        rw [create_err_stack m base stack f pr pv (by omega) hp hs]
        exact ⟨rfl, rfl, rfl⟩
      · intro hs
        rw [create_ok_result m base stack f pr pv (by omega) hp hs]
        exact ⟨rfl, rfl, rfl⟩

/-- Witness for C5: a successful creation from the zero-initialized
machine appends at slot 1 and bumps `add_idx` to 2. -/
theorem c5_witness :
    (create_thread_with_config m0 0 stack32 7 3 true).1 = Except.ok () ∧
    (create_thread_with_config m0 0 stack32 7 3 true).2.1.ts.add_idx =
        m0.ts.add_idx + 1 ∧
    (create_thread_with_config m0 0 stack32 7 3 true).2.1.ts.threads =
        m0.ts.threads.set m0.ts.add_idx
          { sp := 0 + 4 * (stack32.length - 16), priority := 3,
            privileged := if true then 1 else 0,
            status := ThreadStatus.Idle, sleep_ticks := 0 } :=
  (((c5_create_thread_with_config_spec m0 0 stack32 7 3 true rfl).2
      (by decide)).2 (by decide)).2 (by decide)

/-!  Pointwise description of `buildFrame`.  -/

theorem buildFrame_length (stack : List Nat) (pc : Nat) :
    (buildFrame stack pc).length = stack.length := by
  simp [buildFrame]

theorem buildFrame_low (stack : List Nat) (pc : Nat) (h : 32 ≤ stack.length)
    (j : Nat) (hj : j < stack.length - 16) :
    (buildFrame stack pc)[j]? = stack[j]? := by
  unfold buildFrame
  repeat rw [List.getElem?_set_ne (by omega)]

theorem buildFrame_at1 (stack : List Nat) (pc : Nat) (h : 32 ≤ stack.length) :
    (buildFrame stack pc)[stack.length - 1]? = some 0x01000000 := by
  unfold buildFrame
  repeat rw [List.getElem?_set_ne (by omega)]
  rw [List.getElem?_set_self (by simp; omega)]
  decide

theorem buildFrame_at2 (stack : List Nat) (pc : Nat) (h : 32 ≤ stack.length) :
    (buildFrame stack pc)[stack.length - 2]? = some pc := by
  unfold buildFrame
  repeat rw [List.getElem?_set_ne (by omega)]
  rw [show stack.length - 1 - 1 = stack.length - 2 from by omega]
  rw [List.getElem?_set_self (by simp; omega)]

theorem buildFrame_at3 (stack : List Nat) (pc : Nat) (h : 32 ≤ stack.length) :
    (buildFrame stack pc)[stack.length - 3]? = some 0xFFFFFFFD := by
  unfold buildFrame
  repeat rw [List.getElem?_set_ne (by omega)]
  rw [show stack.length - 1 - 2 = stack.length - 3 from by omega]
  rw [List.getElem?_set_self (by simp; omega)]

theorem buildFrame_at4 (stack : List Nat) (pc : Nat) (h : 32 ≤ stack.length) :
    (buildFrame stack pc)[stack.length - 4]? = some 0xCCCCCCCC := by
  unfold buildFrame
  repeat rw [List.getElem?_set_ne (by omega)]
  rw [show stack.length - 1 - 3 = stack.length - 4 from by omega]
  rw [List.getElem?_set_self (by simp; omega)]

theorem buildFrame_at5 (stack : List Nat) (pc : Nat) (h : 32 ≤ stack.length) :
    (buildFrame stack pc)[stack.length - 5]? = some 0x33333333 := by
  unfold buildFrame
  repeat rw [List.getElem?_set_ne (by omega)]
  rw [show stack.length - 1 - 4 = stack.length - 5 from by omega]
  rw [List.getElem?_set_self (by simp; omega)]

theorem buildFrame_at6 (stack : List Nat) (pc : Nat) (h : 32 ≤ stack.length) :
    (buildFrame stack pc)[stack.length - 6]? = some 0x22222222 := by
  unfold buildFrame
  repeat rw [List.getElem?_set_ne (by omega)]
  rw [show stack.length - 1 - 5 = stack.length - 6 from by omega]
  rw [List.getElem?_set_self (by simp; omega)]

theorem buildFrame_at7 (stack : List Nat) (pc : Nat) (h : 32 ≤ stack.length) :
    (buildFrame stack pc)[stack.length - 7]? = some 0x11111111 := by
  unfold buildFrame
  repeat rw [List.getElem?_set_ne (by omega)]
  rw [show stack.length - 1 - 6 = stack.length - 7 from by omega]
  rw [List.getElem?_set_self (by simp; omega)]

theorem buildFrame_at8 (stack : List Nat) (pc : Nat) (h : 32 ≤ stack.length) :
    (buildFrame stack pc)[stack.length - 8]? = some 0x00000000 := by
  unfold buildFrame
  repeat rw [List.getElem?_set_ne (by omega)]
  rw [show stack.length - 1 - 7 = stack.length - 8 from by omega]
  rw [List.getElem?_set_self (by simp; omega)]

theorem buildFrame_at9 (stack : List Nat) (pc : Nat) (h : 32 ≤ stack.length) :
    (buildFrame stack pc)[stack.length - 9]? = some 0x77777777 := by
  unfold buildFrame
  repeat rw [List.getElem?_set_ne (by omega)]
  rw [show stack.length - 1 - 8 = stack.length - 9 from by omega]
  rw [List.getElem?_set_self (by simp; omega)]

theorem buildFrame_at10 (stack : List Nat) (pc : Nat) (h : 32 ≤ stack.length) :
    (buildFrame stack pc)[stack.length - 10]? = some 0x66666666 := by
  unfold buildFrame
  repeat rw [List.getElem?_set_ne (by omega)]
  rw [show stack.length - 1 - 9 = stack.length - 10 from by omega]
  rw [List.getElem?_set_self (by simp; omega)]

theorem buildFrame_at11 (stack : List Nat) (pc : Nat) (h : 32 ≤ stack.length) :
    (buildFrame stack pc)[stack.length - 11]? = some 0x55555555 := by
  unfold buildFrame
  repeat rw [List.getElem?_set_ne (by omega)]
  rw [show stack.length - 1 - 10 = stack.length - 11 from by omega]
  rw [List.getElem?_set_self (by simp; omega)]

theorem buildFrame_at12 (stack : List Nat) (pc : Nat) (h : 32 ≤ stack.length) :
    (buildFrame stack pc)[stack.length - 12]? = some 0x44444444 := by
  unfold buildFrame
  repeat rw [List.getElem?_set_ne (by omega)]
  rw [show stack.length - 1 - 11 = stack.length - 12 from by omega]
  rw [List.getElem?_set_self (by simp; omega)]

theorem buildFrame_at13 (stack : List Nat) (pc : Nat) (h : 32 ≤ stack.length) :
    (buildFrame stack pc)[stack.length - 13]? = some 0xBBBBBBBB := by
  unfold buildFrame
  repeat rw [List.getElem?_set_ne (by omega)]
  rw [show stack.length - 1 - 12 = stack.length - 13 from by omega]
  rw [List.getElem?_set_self (by simp; omega)]

theorem buildFrame_at14 (stack : List Nat) (pc : Nat) (h : 32 ≤ stack.length) :
    (buildFrame stack pc)[stack.length - 14]? = some 0xAAAAAAAA := by
  unfold buildFrame
  repeat rw [List.getElem?_set_ne (by omega)]
  rw [show stack.length - 1 - 13 = stack.length - 14 from by omega]
  rw [List.getElem?_set_self (by simp; omega)]

theorem buildFrame_at15 (stack : List Nat) (pc : Nat) (h : 32 ≤ stack.length) :
    (buildFrame stack pc)[stack.length - 15]? = some 0x99999999 := by
  unfold buildFrame
  repeat rw [List.getElem?_set_ne (by omega)]
  rw [show stack.length - 1 - 14 = stack.length - 15 from by omega]
  rw [List.getElem?_set_self (by simp; omega)]

theorem buildFrame_at16 (stack : List Nat) (pc : Nat) (h : 32 ≤ stack.length) :
    (buildFrame stack pc)[stack.length - 16]? = some 0x88888888 := by
  unfold buildFrame
  rw [show stack.length - 1 - 15 = stack.length - 16 from by omega]
  rw [List.getElem?_set_self (by simp; omega)]

/-- C4: a successful `create_tcb` on a stack of length `N ≥ 32` writes the
synthetic frame: `stack[N-1] = 0x01000000` (xPSR, bit 24 set),
`stack[N-2]` = the entry-function address, `stack[N-3] = 0xFFFFFFFD`
(EXC_RETURN), `stack[N-4] = 0xCCCCCCCC` (R12), `stack[N-5..N-8]` = R3..R0
markers, `stack[N-9..N-12]` = R7..R4 markers, `stack[N-13..N-16]` =
R11..R8 markers, and the TCB's `sp` is the address of `stack[N-16]`. -/
theorem c4_initial_frame (base : Nat) (stack : List Nat) (f pr : Nat)
    (pv : Bool) (h : 32 ≤ stack.length) :
    create_tcb base stack f pr pv =
      Except.ok (buildFrame stack f,
        { sp := base + 4 * (stack.length - 16), priority := pr,
          privileged := if pv then 1 else 0,
          status := ThreadStatus.Idle, sleep_ticks := 0 }) ∧
    (buildFrame stack f).length = stack.length ∧
    (buildFrame stack f)[stack.length - 1]? = some 0x01000000 ∧
    (buildFrame stack f)[stack.length - 2]? = some f ∧
    (buildFrame stack f)[stack.length - 3]? = some 0xFFFFFFFD ∧
    (buildFrame stack f)[stack.length - 4]? = some 0xCCCCCCCC ∧
    (buildFrame stack f)[stack.length - 5]? = some 0x33333333 ∧
    (buildFrame stack f)[stack.length - 6]? = some 0x22222222 ∧
    (buildFrame stack f)[stack.length - 7]? = some 0x11111111 ∧
    (buildFrame stack f)[stack.length - 8]? = some 0x00000000 ∧
    (buildFrame stack f)[stack.length - 9]? = some 0x77777777 ∧
    (buildFrame stack f)[stack.length - 10]? = some 0x66666666 ∧
    (buildFrame stack f)[stack.length - 11]? = some 0x55555555 ∧
    (buildFrame stack f)[stack.length - 12]? = some 0x44444444 ∧
    (buildFrame stack f)[stack.length - 13]? = some 0xBBBBBBBB ∧
    (buildFrame stack f)[stack.length - 14]? = some 0xAAAAAAAA ∧
    (buildFrame stack f)[stack.length - 15]? = some 0x99999999 ∧
    (buildFrame stack f)[stack.length - 16]? = some 0x88888888 ∧
    ({ sp := base + 4 * (stack.length - 16), priority := pr,
       privileged := if pv then 1 else 0,
       status := ThreadStatus.Idle,
       sleep_ticks := 0 } : ThreadControlBlock).sp =
      base + 4 * (stack.length - 16) := by
  have h3' : ¬ (stack.length < 32) := by omega
  exact ⟨by simp [create_tcb, if_neg h3'], buildFrame_length stack f,
    buildFrame_at1 stack f h, buildFrame_at2 stack f h, buildFrame_at3 stack f h,
    buildFrame_at4 stack f h, buildFrame_at5 stack f h, buildFrame_at6 stack f h,
    buildFrame_at7 stack f h, buildFrame_at8 stack f h, buildFrame_at9 stack f h,
    buildFrame_at10 stack f h, buildFrame_at11 stack f h, buildFrame_at12 stack f h,
    buildFrame_at13 stack f h, buildFrame_at14 stack f h, buildFrame_at15 stack f h,
    buildFrame_at16 stack f h, rfl⟩

/-- Witness for C4 on a concrete 32-word stack. -/
theorem c4_witness :
    create_tcb 0 stack32 7 0 false =
      Except.ok (buildFrame stack32 7,
        { sp := 0 + 4 * (stack32.length - 16), priority := 0,
          privileged := if false then 1 else 0,
          status := ThreadStatus.Idle, sleep_ticks := 0 }) ∧
    (buildFrame stack32 7).length = stack32.length ∧
    (buildFrame stack32 7)[stack32.length - 1]? = some 0x01000000 ∧
    (buildFrame stack32 7)[stack32.length - 2]? = some 7 ∧
    (buildFrame stack32 7)[stack32.length - 3]? = some 0xFFFFFFFD ∧
    (buildFrame stack32 7)[stack32.length - 4]? = some 0xCCCCCCCC ∧
    (buildFrame stack32 7)[stack32.length - 5]? = some 0x33333333 ∧
    (buildFrame stack32 7)[stack32.length - 6]? = some 0x22222222 ∧
    (buildFrame stack32 7)[stack32.length - 7]? = some 0x11111111 ∧
    (buildFrame stack32 7)[stack32.length - 8]? = some 0x00000000 ∧
    (buildFrame stack32 7)[stack32.length - 9]? = some 0x77777777 ∧
    (buildFrame stack32 7)[stack32.length - 10]? = some 0x66666666 ∧
    (buildFrame stack32 7)[stack32.length - 11]? = some 0x55555555 ∧
    (buildFrame stack32 7)[stack32.length - 12]? = some 0x44444444 ∧
    (buildFrame stack32 7)[stack32.length - 13]? = some 0xBBBBBBBB ∧
    (buildFrame stack32 7)[stack32.length - 14]? = some 0xAAAAAAAA ∧
    (buildFrame stack32 7)[stack32.length - 15]? = some 0x99999999 ∧
    (buildFrame stack32 7)[stack32.length - 16]? = some 0x88888888 ∧
    ({ sp := 0 + 4 * (stack32.length - 16), priority := 0,
       privileged := if false then 1 else 0,
       status := ThreadStatus.Idle,
       sleep_ticks := 0 } : ThreadControlBlock).sp =
      0 + 4 * (stack32.length - 16) :=
  c4_initial_frame 0 stack32 7 0 false (by decide)

/-- C10: a successful `create_thread_with_config` writes only the top 16
words of the stack buffer: every word at an index below `N - 16` keeps
the value it had before the call. -/
theorem c10_frame_writes_top16_only (m : Machine) (base : Nat)
    (stack : List Nat) (f pr : Nat) (pv : Bool)
    (h1 : m.ts.add_idx < m.ts.threads.length)
    (h2 : ¬ (m.ts.inited = true ∧
      (m.ts.threads.getD m.ts.idx default).privileged = 0))
    (h3 : 32 ≤ stack.length) :
    (create_thread_with_config m base stack f pr pv).1 = Except.ok () ∧
    ∀ j, j < stack.length - 16 →
      ((create_thread_with_config m base stack f pr pv).2.2)[j]? = stack[j]? := by
  rw [create_ok_result m base stack f pr pv h1 h2 h3]
  exact ⟨rfl, fun j hj => buildFrame_low stack f h3 j hj⟩

/-- Witness for C10: the word at index 3 of a fresh 32-word stack is
untouched by a successful creation. -/
theorem c10_witness :
    (create_thread_with_config m0 0 stack32 7 0 false).1 = Except.ok () ∧
    ((create_thread_with_config m0 0 stack32 7 0 false).2.2)[3]? = stack32[3]? :=
  ⟨(c10_frame_writes_top16_only m0 0 stack32 7 0 false (by decide) (by decide)
      (by decide)).1,
   (c10_frame_writes_top16_only m0 0 stack32 7 0 false (by decide) (by decide)
      (by decide)).2 3 (by decide)⟩

/-!  Properties of the `max_by` fold.  -/

theorem foldl_stepMax_isSome (l : List (Nat × ThreadControlBlock))
    (a : Nat × ThreadControlBlock) :
    ∃ m, l.foldl stepMax (some a) = some m := by
  induction l generalizing a with
  | nil => exact ⟨a, rfl⟩
  | cons x xs ih =>
      rw [List.foldl_cons]
      by_cases hc : x.2.priority < a.2.priority
      · rw [show stepMax (some a) x = some a from by simp [stepMax, hc]]
        exact ih a
      · rw [show stepMax (some a) x = some x from by simp [stepMax, hc]]
        exact ih x

/-- Invariant of the `max_by` fold: starting from accumulator `a`, the
result is an element of `a :: l` of maximal priority, and on priority
ties the element with the larger first component (the later one, since
first components strictly increase along the list) wins. -/
theorem foldl_stepMax_spec (l : List (Nat × ThreadControlBlock)) :
    ∀ a m : Nat × ThreadControlBlock,
      (∀ x ∈ l, a.1 < x.1) →
      List.Pairwise (fun u v => u.1 < v.1) l →
      l.foldl stepMax (some a) = some m →
      (m = a ∨ m ∈ l) ∧ a.2.priority ≤ m.2.priority ∧
      (∀ x ∈ l, x.2.priority ≤ m.2.priority) ∧ a.1 ≤ m.1 ∧
      (∀ x ∈ l, x.2.priority = m.2.priority → x.1 ≤ m.1) := by
  induction l with
  | nil =>
      intro a m _ _ hf
      obtain rfl : a = m := by simpa using hf
      exact ⟨Or.inl rfl, le_refl _, by simp, le_refl _, by simp⟩
  | cons x xs ih =>
      intro a m hlt hp hf
      rw [List.foldl_cons] at hf
      by_cases hc : x.2.priority < a.2.priority
      · rw [show stepMax (some a) x = some a from by simp [stepMax, hc]] at hf
        have hlt' : ∀ y ∈ xs, a.1 < y.1 :=
          fun y hy => hlt y (List.mem_cons_of_mem x hy)
        obtain ⟨hmem, hap, hall, hai, htie⟩ := ih a m hlt' hp.of_cons hf
        refine ⟨?_, hap, ?_, hai, ?_⟩
        · rcases hmem with h | h
          · exact Or.inl h
          · exact Or.inr (List.mem_cons_of_mem x h)
        · intro y hy
          rcases List.mem_cons.mp hy with rfl | hy'
          · omega
          · exact hall y hy'
        · intro y hy hpy
          rcases List.mem_cons.mp hy with rfl | hy'
          · omega
          · exact htie y hy' hpy
      · rw [show stepMax (some a) x = some x from by simp [stepMax, hc]] at hf
        have hna : a.2.priority ≤ x.2.priority := by omega
        have hlt' : ∀ y ∈ xs, x.1 < y.1 := (List.pairwise_cons.mp hp).1
        obtain ⟨hmem, hxp, hall, hxi, htie⟩ := ih x m hlt' hp.of_cons hf
        refine ⟨?_, le_trans hna hxp, ?_, ?_, ?_⟩
        · rcases hmem with h | h
          · exact Or.inr (h ▸ List.mem_cons_self x xs)
          · exact Or.inr (List.mem_cons_of_mem x h)
        · intro y hy
          rcases List.mem_cons.mp hy with rfl | hy'
          · exact hxp
          · exact hall y hy'
        · exact le_of_lt (lt_of_lt_of_le (hlt x (List.mem_cons_self x xs)) hxi)
        · intro y hy hpy
          rcases List.mem_cons.mp hy with rfl | hy'
          · exact hxi
          · exact htie y hy' hpy

theorem maxByPriority_isSome (l : List (Nat × ThreadControlBlock))
    (hne : l ≠ []) : ∃ m, maxByPriority l = some m := by
  cases l with
  | nil => exact absurd rfl hne
  | cons x xs =>
      rw [maxByPriority, List.foldl_cons,
        show stepMax none x = some x from rfl]
      exact foldl_stepMax_isSome xs x

/-- `max_by` returns an element of maximal priority; on priority ties,
when first components strictly increase along the list, the returned
element has the largest first component among the tied ones. -/
theorem maxByPriority_spec (l : List (Nat × ThreadControlBlock))
    (hp : List.Pairwise (fun u v => u.1 < v.1) l)
    (m : Nat × ThreadControlBlock) (hf : maxByPriority l = some m) :
    m ∈ l ∧ (∀ x ∈ l, x.2.priority ≤ m.2.priority) ∧
    (∀ x ∈ l, x.2.priority = m.2.priority → x.1 ≤ m.1) := by
  cases l with
  | nil => simp [maxByPriority] at hf
  | cons x xs =>
      rw [maxByPriority, List.foldl_cons,
        show stepMax none x = some x from rfl] at hf
      obtain ⟨hmem, hxp, hall, hxi, htie⟩ :=
        foldl_stepMax_spec xs x m (List.pairwise_cons.mp hp).1 hp.of_cons hf
      refine ⟨?_, ?_, ?_⟩
      · rcases hmem with h | h
        · exact h ▸ List.mem_cons_self x xs
        · exact List.mem_cons_of_mem x h
      · intro y hy
        rcases List.mem_cons.mp hy with rfl | hy'
        · exact hxp
        · exact hall y hy'
      · intro y hy hpy
        rcases List.mem_cons.mp hy with rfl | hy'
        · exact hxi
        · exact htie y hy' hpy

theorem pairwise_enum_fst (l : List ThreadControlBlock) :
    List.Pairwise (fun u v => u.1 < v.1) l.enum := by
  have h := List.pairwise_lt_range l.length
  rw [← List.enum_map_fst l] at h
  exact List.pairwise_map.mp h

theorem pairwise_candidates (s : ThreadsState) :
    List.Pairwise (fun u v => u.1 < v.1) (candidates s) :=
  (pairwise_enum_fst (updThreads s)).filter (runnableFilter s.add_idx)

theorem mem_candidates (s : ThreadsState) (i : Nat) (t : ThreadControlBlock) :
    (i, t) ∈ candidates s ↔ runnableAfter s i t := by
  unfold candidates runnableAfter
  rw [List.mem_filter, List.mk_mem_enum_iff_getElem?]
  simp only [runnableFilter, Bool.and_eq_true, decide_eq_true_eq]
  tauto

/-!  State effect of `get_next_thread_idx`.  -/

theorem gnti_state (s : ThreadsState) (h : 1 < s.add_idx) :
    (get_next_thread_idx s).2 = { s with threads := updThreads s } := by
  unfold get_next_thread_idx
  rw [if_neg (by omega)]
  cases hM : maxByPriority (candidates s) with
  | none => rfl
  | some m =>
      obtain ⟨mi, mt⟩ := m
      rfl

theorem gnti_add_idx (s : ThreadsState) :
    (get_next_thread_idx s).2.add_idx = s.add_idx := by
  by_cases h : s.add_idx ≤ 1
  · unfold get_next_thread_idx
    rw [if_pos h]
  · rw [gnti_state s (by omega)]

theorem updThreads_getElem (s : ThreadsState) (i : Nat)
    (t : ThreadControlBlock) (h0 : 0 < i) (hi : i < s.add_idx)
    (ht : s.threads[i]? = some t) :
    (updThreads s)[i]? = some (tickSleeper t) := by
  unfold updThreads updateSleepers
  rw [List.getElem?_mapIdx, ht]
  show some (if 1 ≤ i ∧ i < s.add_idx then tickSleeper t else t) =
    some (tickSleeper t)
  rw [if_pos ⟨h0, hi⟩]

theorem gnti_result_runnable (s : ThreadsState) :
    (get_next_thread_idx s).1 = 0 ∨
    ∃ t, runnableAfter s (get_next_thread_idx s).1 t := by
  by_cases h1 : s.add_idx ≤ 1
  · left
    unfold get_next_thread_idx
    rw [if_pos h1]
  · rcases hM : maxByPriority (candidates s) with _ | ⟨mi, mt⟩
    · left
      unfold get_next_thread_idx
      rw [if_neg h1, hM]
    · right
      obtain ⟨hmem, -, -⟩ :=
        maxByPriority_spec _ (pairwise_candidates s) _ hM
      have hres : (get_next_thread_idx s).1 = mi := by
        unfold get_next_thread_idx
        rw [if_neg h1, hM]
      rw [hres]
      exact ⟨mt, (mem_candidates s mi mt).mp hmem⟩

/-- C8: `get_next_thread_idx` returns 0 when `add_idx ≤ 1` or when, after
the sleep-counter update, no slot of `[1, add_idx)` is non-sleeping;
otherwise it returns an index of `[1, add_idx)` whose thread is
non-sleeping and of maximal priority among the non-sleeping user threads
(in particular the idle slot 0 is never returned then). -/
theorem c8_selection_spec (s : ThreadsState) :
    ((s.add_idx ≤ 1 ∨ ∀ i t, ¬ runnableAfter s i t) →
        (get_next_thread_idx s).1 = 0) ∧
    ((∃ i t, runnableAfter s i t) →
        ∃ t, runnableAfter s (get_next_thread_idx s).1 t ∧
          ∀ j u, runnableAfter s j u → u.priority ≤ t.priority) := by
  constructor
  · intro hh
    by_cases h1 : s.add_idx ≤ 1
    · unfold get_next_thread_idx
      rw [if_pos h1]
    · have hnone : ∀ i t, ¬ runnableAfter s i t := by
        rcases hh with h | h
        · exact absurd h h1
        · exact h
      have hnil : candidates s = [] := by
        rw [List.eq_nil_iff_forall_not_mem]
        intro x hx
        exact hnone x.1 x.2 ((mem_candidates s x.1 x.2).mp hx)
      unfold get_next_thread_idx
      rw [if_neg h1, hnil]
      rfl
  · rintro ⟨i, t, hr⟩
    have h1 : ¬ s.add_idx ≤ 1 := by
      obtain ⟨h0, hlt, -, -⟩ := hr
      omega
    have hne : candidates s ≠ [] := by
      intro hnil
      have hmem := (mem_candidates s i t).mpr hr
      rw [hnil] at hmem
      exact absurd hmem (List.not_mem_nil _)
    obtain ⟨m, hM⟩ := maxByPriority_isSome _ hne
    obtain ⟨mi, mt⟩ := m
    obtain ⟨hmem, hall, -⟩ :=
      maxByPriority_spec _ (pairwise_candidates s) _ hM
    have hres : (get_next_thread_idx s).1 = mi := by
      unfold get_next_thread_idx
      rw [if_neg h1, hM]
    refine ⟨mt, ?_, ?_⟩
    · rw [hres]
      exact (mem_candidates s mi mt).mp hmem
    · exact fun j u hju => hall (j, u) ((mem_candidates s j u).mpr hju)

/-- Witness for C8 at `exC8` (a runnable user thread exists in slot 1). -/
theorem c8_witness :
    ∃ t, runnableAfter exC8 (get_next_thread_idx exC8).1 t ∧
      ∀ j u, runnableAfter exC8 j u → u.priority ≤ t.priority :=
  (c8_selection_spec exC8).2 ⟨1, mkTcb 5 ThreadStatus.Idle 0, by decide⟩

theorem maxPrioBound_sound (s : ThreadsState) (p : Nat)
    (h : maxPrioBound s p = true) :
    ∀ k u, runnableAfter s k u → u.priority ≤ p := by
  intro k u hr
  obtain ⟨h0, hlt, hget, hst⟩ := hr
  have hmem : (k, u) ∈ (updThreads s).enum :=
    List.mk_mem_enum_iff_getElem?.mpr hget
  have hq := List.all_eq_true.mp h (k, u) hmem
  have hrf : runnableFilter s.add_idx (k, u) = true := by
    simp [runnableFilter, h0, hlt, hst]
  rw [hrf] at hq
  simpa using hq

/-- Counterexample to C1 as stated: in `exC1` the user slots 1 and 2 are
both non-sleeping at the shared maximal priority 5, yet the scheduler
returns slot 2, not the lowest tied index 1: Rust's `max_by` keeps the
last maximal element. -/
theorem c1_counterexample :
    runnableAfter exC1 1 (mkTcb 5 ThreadStatus.Idle 0) ∧
    runnableAfter exC1 2 (mkTcb 5 ThreadStatus.Idle 0) ∧
    maxPrioBound exC1 5 = true ∧
    (get_next_thread_idx exC1).1 = 2 ∧ (2 : Nat) ≠ 1 :=
  ⟨by decide, by decide, by decide, by decide, by decide⟩

/-- C1 amended: when two or more non-sleeping user threads share the
maximal priority, `get_next_thread_idx` returns the HIGHEST such slot
index (the last slot in iteration order), because Rust's `max_by` returns
the last maximal element. -/
theorem c1_amended_highest_tie (s : ThreadsState) (i j : Nat)
    (ti tj : ThreadControlBlock) (hij : i < j)
    (_hri : runnableAfter s i ti) (hrj : runnableAfter s j tj)
    (_hpeq : ti.priority = tj.priority)
    (hmax : ∀ k u, runnableAfter s k u → u.priority ≤ tj.priority) :
    ∃ t, runnableAfter s (get_next_thread_idx s).1 t ∧
      t.priority = tj.priority ∧
      ∀ k u, runnableAfter s k u → u.priority = tj.priority →
        k ≤ (get_next_thread_idx s).1 := by
  have h1 : ¬ s.add_idx ≤ 1 := by
    obtain ⟨h0, hlt, -, -⟩ := hrj
    omega
  have hne : candidates s ≠ [] := by
    intro hnil
    have hmem := (mem_candidates s j tj).mpr hrj
    rw [hnil] at hmem
    exact absurd hmem (List.not_mem_nil _)
  obtain ⟨m, hM⟩ := maxByPriority_isSome _ hne
  obtain ⟨mi, mt⟩ := m
  obtain ⟨hmem, hall, htie⟩ :=
    maxByPriority_spec _ (pairwise_candidates s) _ hM
  have hres : (get_next_thread_idx s).1 = mi := by
    unfold get_next_thread_idx
    rw [if_neg h1, hM]
  have hrm : runnableAfter s mi mt := (mem_candidates s mi mt).mp hmem
  have hmtp : mt.priority = tj.priority := by
    have hle : mt.priority ≤ tj.priority := hmax mi mt hrm
    have hge : tj.priority ≤ mt.priority :=
      hall (j, tj) ((mem_candidates s j tj).mpr hrj)
    omega
  refine ⟨mt, ?_, hmtp, ?_⟩
  · rw [hres]
    exact hrm
  · intro k u hku hpu
    rw [hres]
    exact htie (k, u) ((mem_candidates s k u).mpr hku)
      (show u.priority = mt.priority by omega)

/-- Witness for C1 amended at `exC1`: slots 1 and 2 tie at priority 5. -/
theorem c1_witness :
    ∃ t, runnableAfter exC1 (get_next_thread_idx exC1).1 t ∧
      t.priority = (mkTcb 5 ThreadStatus.Idle 0).priority ∧
      ∀ k u, runnableAfter exC1 k u →
        u.priority = (mkTcb 5 ThreadStatus.Idle 0).priority →
        k ≤ (get_next_thread_idx exC1).1 :=
  c1_amended_highest_tie exC1 1 2 (mkTcb 5 ThreadStatus.Idle 0)
    (mkTcb 5 ThreadStatus.Idle 0) (by decide) (by decide) (by decide) rfl
    (maxPrioBound_sound exC1 5 (by decide))

theorem gnti_result_ne_sleeping (s : ThreadsState) (i : Nat)
    (t : ThreadControlBlock) (h0 : 0 < i) (hi : i < s.add_idx)
    (ht : s.threads[i]? = some t) (hst : t.status = ThreadStatus.Sleeping)
    (hticks : 0 < t.sleep_ticks) :
    (get_next_thread_idx s).1 ≠ i := by
  intro hEq
  rcases gnti_result_runnable s with hz | ⟨u, hu⟩
  · omega
  · rw [hEq] at hu
    obtain ⟨-, -, hget, hstu⟩ := hu
    rw [updThreads_getElem s i t h0 hi ht] at hget
    have hu' : u = tickSleeper t := by
      injection hget with h'
      exact h'.symm
    rw [hu'] at hstu
    simp [tickSleeper, hst, hticks] at hstu

theorem schedIter_sleeping (s : ThreadsState) (i : Nat)
    (t : ThreadControlBlock) (h1 : 1 < s.add_idx) (h0 : 0 < i)
    (hi : i < s.add_idx) (ht : s.threads[i]? = some t)
    (hst : t.status = ThreadStatus.Sleeping) :
    ∀ k, k ≤ t.sleep_ticks →
      (schedIter k s).add_idx = s.add_idx ∧
      (schedIter k s).threads[i]? =
        some { t with sleep_ticks := t.sleep_ticks - k } := by
  intro k
  induction k with
  | zero =>
      intro _
      refine ⟨rfl, ?_⟩
      rw [show schedIter 0 s = s from rfl, ht]
      rfl
  | succ k ih =>
      intro hk
      obtain ⟨hadd, hthreads⟩ := ih (by omega)
      have h1k : 1 < (schedIter k s).add_idx := by omega
      have hik : i < (schedIter k s).add_idx := by omega
      constructor
      · show (get_next_thread_idx (schedIter k s)).2.add_idx = s.add_idx
        rw [gnti_add_idx, hadd]
      · show (get_next_thread_idx (schedIter k s)).2.threads[i]? = _
        rw [gnti_state _ h1k]
        show (updThreads (schedIter k s))[i]? = _
        rw [updThreads_getElem (schedIter k s) i _ h0 hik hthreads]
        have hpos : 0 < t.sleep_ticks - k := by omega
        simp [tickSleeper, hst, hpos, Nat.sub_sub]

/-- C6: one invocation of `get_next_thread_idx` (with user threads
present) decrements the counter of every sleeping user slot whose
`sleep_ticks` is positive, leaving it sleeping, and wakes (sets to
`Idle`) every sleeping user slot whose counter is 0, making it eligible
in that same invocation; consequently a thread sleeping with
`sleep_ticks = n` is not selected during the next `n` invocations, and
on invocation `n + 1` it is woken and eligible. -/
theorem c6_sleep_tick_semantics (s : ThreadsState) (i : Nat)
    (t : ThreadControlBlock) (h1 : 1 < s.add_idx) (h0 : 0 < i)
    (hi : i < s.add_idx) (ht : s.threads[i]? = some t)
    (hst : t.status = ThreadStatus.Sleeping) :
    (0 < t.sleep_ticks →
        (get_next_thread_idx s).2.threads[i]? =
          some { t with sleep_ticks := t.sleep_ticks - 1 }) ∧
    (t.sleep_ticks = 0 →
        (get_next_thread_idx s).2.threads[i]? =
          some { t with status := ThreadStatus.Idle } ∧
        runnableAfter s i { t with status := ThreadStatus.Idle }) ∧
    (∀ k, k < t.sleep_ticks →
        (schedIter (k + 1) s).threads[i]? =
          some { t with sleep_ticks := t.sleep_ticks - (k + 1) } ∧
        (get_next_thread_idx (schedIter k s)).1 ≠ i) ∧
    (schedIter (t.sleep_ticks + 1) s).threads[i]? =
        some { t with status := ThreadStatus.Idle, sleep_ticks := 0 } ∧
    runnableAfter (schedIter t.sleep_ticks s) i
      { t with status := ThreadStatus.Idle, sleep_ticks := 0 } := by
  have hiter := schedIter_sleeping s i t h1 h0 hi ht hst
  obtain ⟨haddn, hthreadsn⟩ := hiter t.sleep_ticks (le_refl _)
  have h1n : 1 < (schedIter t.sleep_ticks s).add_idx := by omega
  have hin : i < (schedIter t.sleep_ticks s).add_idx := by omega
  have hwake : (updThreads (schedIter t.sleep_ticks s))[i]? =
      some { t with status := ThreadStatus.Idle, sleep_ticks := 0 } := by
    rw [updThreads_getElem (schedIter t.sleep_ticks s) i _ h0 hin hthreadsn]
    simp [tickSleeper, hst]
  refine ⟨?_, ?_, ?_, ?_, ?_⟩
  · intro hpos
    rw [gnti_state s h1]
    show (updThreads s)[i]? = _
    rw [updThreads_getElem s i t h0 hi ht]
    simp [tickSleeper, hst, hpos]
  · intro hzero
    constructor
    · rw [gnti_state s h1]
      show (updThreads s)[i]? = _
      rw [updThreads_getElem s i t h0 hi ht]
      simp [tickSleeper, hst, hzero]
    · refine ⟨h0, hi, ?_, by simp⟩
      rw [updThreads_getElem s i t h0 hi ht]
      simp [tickSleeper, hst, hzero]
  · intro k hk
    obtain ⟨haddk, hthreadsk⟩ := hiter (k + 1) (by omega)
    refine ⟨hthreadsk, ?_⟩
    obtain ⟨haddk', hthreadsk'⟩ := hiter k (by omega)
    exact gnti_result_ne_sleeping (schedIter k s) i _ h0 (by omega)
      hthreadsk' (by simp [hst]) (by simp; omega)
  · show (get_next_thread_idx (schedIter t.sleep_ticks s)).2.threads[i]? = _
    rw [gnti_state _ h1n]
    exact hwake
  · exact ⟨h0, hin, hwake, by simp⟩

/-- Witness for C6 at `exC6`: the slot-1 thread sleeps for 3 ticks, is
not selected by the third invocation, and after the fourth invocation it
is awake (`Idle`, counter 0); it is already eligible during the fourth
invocation. -/
theorem c6_witness :
    ((get_next_thread_idx (schedIter 2 exC6)).1 ≠ 1) ∧
    (schedIter 4 exC6).threads[1]? =
      some { mkTcb 1 ThreadStatus.Sleeping 3 with
             status := ThreadStatus.Idle, sleep_ticks := 0 } ∧
    runnableAfter (schedIter 3 exC6) 1
      { mkTcb 1 ThreadStatus.Sleeping 3 with
        status := ThreadStatus.Idle, sleep_ticks := 0 } := by
  have h := c6_sleep_tick_semantics exC6 1 (mkTcb 1 ThreadStatus.Sleeping 3)
    (by decide) (by decide) (by decide) (by decide) rfl
  exact ⟨(h.2.2.1 2 (by decide)).2, h.2.2.2.1, h.2.2.2.2⟩

end CortexmThreads
